import Mathlib

/-!
Verification of the NullbrSearch plugin (repository `MoviePilot-Plugins-Third`).

A shallow embedding of the resolution engine found in
`plugins.v2/nullbrsearch/__init__.py` and the two client modules
`plugins.v2/nullbr_search/nullbr_client.py` and
`plugins.v2/nullbr_search/cms_client.py`.

Conventions of the embedding:
* Python dictionaries coming back from the external API are modelled as
  association lists (`Bundle`); a missing key is `none`/a failed lookup.
* Python truthiness is made explicit: an empty string, an empty list, an
  empty dict, `None` and the integer 0 are falsy.
* Wall-clock times are integers (seconds); `time.time()` is passed in as a
  `now` parameter.
* Network effects are oracles passed as function arguments; each embedded
  operation additionally returns the trace of network calls it made, so
  call-ordering properties can be stated.
* Message texts are `List Char` (Python `str` is a sequence of code points).
-/

namespace NullbrSearch

/-- One raw record of a resource bundle as returned by the external API
(the fields consumed by the plugin; `none` models a missing key). -/
structure RawRes where
  share_link : Option String
  magnet : Option String
  url : Option String
  link : Option String
  title : Option String
  name : Option String
  size : Option String
deriving DecidableEq, Repr

/-- A resource bundle: the JSON dictionary returned by the resource
endpoints, keyed by resource-type name. -/
def Bundle : Type := List (String × List RawRes)

instance : DecidableEq Bundle := inferInstanceAs (DecidableEq (List (String × List RawRes)))

/-- Embeds `resources.get(t, [])` on a bundle dictionary. -/
def bundleGet (b : Bundle) (t : String) : List RawRes :=
  (List.lookup t b).getD []

/-- Python truthiness of an optional bundle: `None` and the empty dict are
falsy (`if not resources:` in the source). -/
def pyTruthyBundle : Option Bundle → Bool
  | none => false
  | some b => !b.isEmpty

/-- One entry of the per-user resource cache
(`__init__.py` line 1445: the url/title/size/type record). -/
structure Item where
  url : String
  title : String
  size : String
  rtype : String
deriving DecidableEq, Repr

/-- A `_user_resource_cache` cell (`__init__.py` lines 1453-1458). -/
structure RCEntry where
  resources : List Item
  title : String
  resource_type : String
  timestamp : Int
deriving DecidableEq, Repr

/-- One search hit as kept in `_user_search_cache` (the fields the plugin
reads; `none` models a missing JSON key; the four Booleans are the
truthiness of the `*-flg` fields, a missing flag being falsy). -/
structure Hit where
  title : Option String
  mediaType : String
  tmdbid : Option Nat
  flg115 : Bool
  flgMagnet : Bool
  flgVideo : Bool
  flgEd2k : Bool
deriving DecidableEq, Repr

/-- Embeds `selected.get("title", "未知标题")` (`__init__.py` line 1513). -/
def hitTitle (h : Hit) : String := h.title.getD "未知标题"

/-- Embeds the flag lookup keyed by the type name plus "-flg"
(`__init__.py` line 1532): an unknown flag
key reads as missing, i.e. falsy. -/
def flagOf (h : Hit) (t : String) : Bool :=
  if t == "115" then h.flg115
  else if t == "magnet" then h.flgMagnet
  else if t == "video" then h.flgVideo
  else if t == "ed2k" then h.flgEd2k
  else false

/-- A `_user_search_cache` cell (`__init__.py` lines 1182-1186). -/
structure SCEntry where
  results : List Hit
  keyword : String
  timestamp : Int
deriving DecidableEq, Repr

/-- Plugin configuration consumed by the resolution engine. -/
structure Config where
  priority : List String
  enable115 : Bool
  enableMagnet : Bool
  enableVideo : Bool
  enableEd2k : Bool
deriving DecidableEq, Repr

/-- Embeds the per-type enable switch lookup, `getattr` with a default of
True (`__init__.py` line 1539): an
unknown type name defaults to enabled. -/
def enabledOf (cfg : Config) (t : String) : Bool :=
  if t == "115" then cfg.enable115
  else if t == "magnet" then cfg.enableMagnet
  else if t == "video" then cfg.enableVideo
  else if t == "ed2k" then cfg.enableEd2k
  else true

/-- Python truthiness of the `tmdbid` value (`if not tmdbid:`,
`__init__.py` lines 1369 and 1517): missing and 0 are falsy. -/
def truthyTmdb : Option Nat → Bool
  | none => false
  | some n => n != 0

/-- The freshness check of `talk` (`__init__.py` line 1141):
`time.time() - cache["timestamp"] < 3600`. -/
def cacheFresh (now ts : Int) : Bool := now - ts < 3600

/-- The expiry check of the handlers (`__init__.py` lines 1247, 1344,
1611): `time.time() - cache["timestamp"] > 3600`. -/
def cacheExpired (now ts : Int) : Bool := now - ts > 3600

/-- The per-type URL extraction of `_format_and_send_resources`
(`__init__.py` lines 1435-1442). -/
def urlFor (t : String) (r : RawRes) : String :=
  if t == "115" then r.share_link.getD ""
  else if t == "magnet" then r.magnet.getD ""
  else if t == "video" || t == "ed2k" then
    (match r.url with
     | some u => u
     | none => r.link.getD "")
  else ""

/-- The cached item built from one raw record
(`__init__.py` lines 1445-1450). -/
def itemOf (t : String) (r : RawRes) : Item :=
  { url := urlFor t r
    title := (match r.title with
              | some s => s
              | none => r.name.getD "未知")
    size := r.size.getD "未知"
    rtype := t }

/-- The resource-cache list built by `_format_and_send_resources`
(`__init__.py` lines 1433-1450): at most the first 10 raw records, and
only those whose type-specific URL is truthy. -/
def buildResourceCache (t : String) (raws : List RawRes) : List Item :=
  (raws.take 10).filterMap fun r =>
    if urlFor t r == "" then none else some (itemOf t r)

/-- The `_user_resource_cache[userid]` assignment of
`_format_and_send_resources` (`__init__.py` lines 1453-1458). -/
def formatWrite (t : String) (raws : List RawRes) (title : String) (now : Int) : RCEntry :=
  { resources := buildResourceCache t raws
    title := title
    resource_type := t
    timestamp := now }

/-- Outcome of `get_resources_by_priority`. -/
inductive POutcome where
  | errNoTmdb
  | found (t : String) (items : List RawRes)
  | fallback (query : String)
deriving DecidableEq, Repr

/-- Observable behaviour of one run of `get_resources_by_priority`:
the resource types actually fetched over the network (in order), the
outcome, and the write (if any) it performs on the two per-user caches. -/
structure PriorityRun where
  calls : List String
  outcome : POutcome
  resourceWrite : Option RCEntry
  searchWrite : Option SCEntry
deriving DecidableEq, Repr

/-- Dispatch on `media_type` (`__init__.py` lines 1546-1550): a fetch
happens only for `movie`/`tv`; the Boolean records whether a network call
was made. -/
def mediaFetchRes (h : Hit) (fM fT : String → Option Bundle) (t : String) :
    Option Bundle × Bool :=
  if h.mediaType == "movie" then (fM t, true)
  else if h.mediaType == "tv" then (fT t, true)
  else (none, false)

/-- Embeds `resources and resources.get(priority_type)` (`__init__.py` line
1552): the response dict is truthy and holds a non-empty list under the
type key. -/
def bundleFound (res : Option Bundle) (t : String) : Bool :=
  match res with
  | none => false
  | some b => !b.isEmpty && !(bundleGet b t).isEmpty

/-- The `for priority_type in self._resource_priority` loop of
`get_resources_by_priority` (`__init__.py` lines 1530-1585). -/
def priorityLoop (cfg : Config) (h : Hit) (fM fT : String → Option Bundle)
    (now : Int) : List String → PriorityRun
  | [] => ⟨[], .fallback (hitTitle h), none, none⟩
  | t :: rest =>
    if !flagOf h t then priorityLoop cfg h fM fT now rest
    else if !enabledOf cfg t then priorityLoop cfg h fM fT now rest
    else
      let rc := mediaFetchRes h fM fT t
      let here := if rc.2 then [t] else []
      if bundleFound rc.1 t then
        let l := bundleGet ((rc.1).getD []) t
        ⟨here, .found t l, some (formatWrite t l (hitTitle h) now), none⟩
      else
        let r := priorityLoop cfg h fM fT now rest
        ⟨here ++ r.calls, r.outcome, r.resourceWrite, r.searchWrite⟩

/-- Embeds `get_resources_by_priority` (`__init__.py` lines 1510-1585): guard on
a truthy `tmdbid`, then the priority walk; on exhaustion the fallback
search is invoked with the hit's title. -/
def getResourcesByPriority (cfg : Config) (h : Hit)
    (fM fT : String → Option Bundle) (now : Int) : PriorityRun :=
  if !truthyTmdb h.tmdbid then ⟨[], .errNoTmdb, none, none⟩
  else priorityLoop cfg h fM fT now cfg.priority

/-- Reply classes of `handle_get_resources`. -/
inductive GRReply where
  | configError
  | expired
  | invalidIndex (len : Nat)
  | errNoTmdb
  | fallbackSwitch (title : String)
  | noResources (title : String)
  | sentResources (t : String)
deriving DecidableEq, Repr

/-- Observable behaviour of one run of `handle_get_resources`. -/
structure GRRun where
  reply : GRReply
  calls : List String
  resourceWrite : Option RCEntry
  searchWrite : Option SCEntry
deriving DecidableEq, Repr

/-- A default hit for the (bounds-checked) list indexing. -/
def dfltHit : Hit := ⟨none, "unknown", none, false, false, false, false⟩

/-- Embeds `handle_get_resources` (`__init__.py` lines 1329-1408): API-key guard,
search-cache freshness guard, index guard, `tmdbid` guard, then a single
typed fetch; a falsy response dict triggers the fallback search, an empty
list under the type key yields the "no resources" reply (and no cache
write), otherwise `_format_and_send_resources` stores and sends. -/
def handleGetResources (hasKey : Bool) (cache : Option SCEntry) (now : Int)
    (number : Nat) (rtype : String) (fM fT : String → Option Bundle) : GRRun :=
  if !hasKey then ⟨.configError, [], none, none⟩
  else
    match cache with
    | none => ⟨.expired, [], none, none⟩
    | some c =>
      if cacheExpired now c.timestamp then ⟨.expired, [], none, none⟩
      else if number < 1 || number > c.results.length then
        ⟨.invalidIndex c.results.length, [], none, none⟩
      else
        let selected := c.results.getD (number - 1) dfltHit
        if !truthyTmdb selected.tmdbid then ⟨.errNoTmdb, [], none, none⟩
        else
          let rc := mediaFetchRes selected fM fT rtype
          let calls := if rc.2 then [rtype] else []
          match rc.1 with
          | none => ⟨.fallbackSwitch (hitTitle selected), calls, none, none⟩
          | some b =>
            if b.isEmpty then ⟨.fallbackSwitch (hitTitle selected), calls, none, none⟩
            else
              let l := bundleGet b rtype
              if l.isEmpty then ⟨.noResources (hitTitle selected), calls, none, none⟩
              else ⟨.sentResources rtype, calls,
                    some (formatWrite rtype l (hitTitle selected) now), none⟩

/-- Reply classes of `handle_resource_selection`. -/
inductive SelReply where
  | expired
  | invalidIndex (len : Nat)
  | details (h : Hit)
  | fetchRun (r : PriorityRun)
deriving DecidableEq, Repr

/-- Embeds `handle_resource_selection` (`__init__.py` lines 1242-1318):
search-cache freshness guard, index guard; without an API key the hit's
details are shown, with one the priority walk runs. -/
def handleResourceSelection (cfg : Config) (hasKey : Bool)
    (cache : Option SCEntry) (now : Int) (number : Nat)
    (fM fT : String → Option Bundle) : SelReply :=
  match cache with
  | none => .expired
  | some c =>
    if cacheExpired now c.timestamp then .expired
    else if number < 1 || number > c.results.length then
      .invalidIndex c.results.length
    else
      let selected := c.results.getD (number - 1) dfltHit
      if !hasKey then .details selected
      else .fetchRun (getResourcesByPriority cfg selected fM fT now)

/-- A default item for the (bounds-checked) list indexing. -/
def dfltItem : Item := ⟨"", "", "", ""⟩

/-- Reply classes of `handle_resource_transfer` up to the CMS call. -/
inductive TransferReply where
  | notEnabled
  | expired
  | invalidIndex (len : Nat)
  | proceed (it : Item)
deriving DecidableEq, Repr

/-- Embeds `handle_resource_transfer` (`__init__.py` lines 1596-1637) up to the
point where `add_share_down` is invoked with the selected item's URL. -/
def handleResourceTransfer (cmsEnabled hasCmsClient : Bool)
    (cache : Option RCEntry) (now : Int) (rid : Nat) : TransferReply :=
  if !cmsEnabled || !hasCmsClient then .notEnabled
  else
    match cache with
    | none => .expired
    | some c =>
      if cacheExpired now c.timestamp then .expired
      else if rid < 1 || rid > c.resources.length then
        .invalidIndex c.resources.length
      else .proceed (c.resources.getD (rid - 1) dfltItem)

/-! ### Transport layer (`NullbrApiClient._make_request` and the two-path
retry block repeated in `search` / `get_movie_resources` /
`get_tv_resources`, `__init__.py` lines 163-175 and 197-212). -/

/-- The network faults `requests` can raise on an attempt; the first four
are the ones the two-path block catches for path fallback. -/
inductive NetFault where
  | timeout
  | connectTimeout
  | readTimeout
  | connectionError
  | otherRequestExc
deriving DecidableEq, Repr

/-- The `except (Timeout, ConnectTimeout, ReadTimeout, ConnectionError)`
tuple (`__init__.py` lines 203-204). -/
def isProxyFallbackFault : NetFault → Bool
  | .timeout => true
  | .connectTimeout => true
  | .readTimeout => true
  | .connectionError => true
  | .otherRequestExc => false

/-- An HTTP response: status code and parsed JSON body (as a bundle). -/
structure Resp where
  status : Nat
  body : Bundle
deriving DecidableEq

/-- A `requests` timeout argument: a single total value or a
(connect, read) pair. -/
inductive TimeoutSpec where
  | single (s : Nat)
  | pair (connect read : Nat)
deriving DecidableEq, Repr

/-- Embeds `timeout = 5 if use_proxy else (10, 30)` (`__init__.py` line 173). -/
def requestTimeout (useProxy : Bool) : TimeoutSpec :=
  if useProxy then .single 5 else .pair 10 30

/-- One attempted HTTP call: which path and with which timeout. -/
structure Attempt where
  proxied : Bool
  timeout : TimeoutSpec
deriving DecidableEq, Repr

/-- The two-path request block (`__init__.py` lines 197-212): try the
proxied path; on a caught timeout/connection fault try the direct path
once; any other outcome of the proxied attempt ends the sequence.  The
result is the trace of attempts and the response obtained (if any). -/
def twoPathRequest (proxyRes directRes : Except NetFault Resp) :
    List Attempt × Option Resp :=
  match proxyRes with
  | .ok r => ([⟨true, requestTimeout true⟩], some r)
  | .error f =>
    if isProxyFallbackFault f then
      match directRes with
      | .ok r => ([⟨true, requestTimeout true⟩, ⟨false, requestTimeout false⟩], some r)
      | .error _ => ([⟨true, requestTimeout true⟩, ⟨false, requestTimeout false⟩], none)
    else ([⟨true, requestTimeout true⟩], none)

/-- The status dispatch shared by `get_movie_resources` and
`get_tv_resources` (`__init__.py` lines 254-267): 200 returns the parsed
body, every other status (401, 403, 429, 404, …) returns `None`. -/
def resourceStatusResult (r : Resp) : Option Bundle :=
  if r.status == 200 then some r.body
  else if r.status == 401 then none
  else if r.status == 403 then none
  else if r.status == 429 then none
  else none

/-- Embeds `NullbrApiClient.get_movie_resources` (`__init__.py` lines 227-271):
API-key guard, two-path transport, status dispatch. -/
def get_movie_resources (hasKey : Bool) (proxyRes directRes : Except NetFault Resp) :
    Option Bundle :=
  if !hasKey then none
  else
    match (twoPathRequest proxyRes directRes).2 with
    | none => none
    | some r => resourceStatusResult r

/-- Embeds `NullbrApiClient.get_tv_resources` (`__init__.py` lines 273-317):
identical structure to the movie variant. -/
def get_tv_resources (hasKey : Bool) (proxyRes directRes : Except NetFault Resp) :
    Option Bundle :=
  if !hasKey then none
  else
    match (twoPathRequest proxyRes directRes).2 with
    | none => none
    | some r => resourceStatusResult r

/-! ### Transfer client (`CloudSyncMediaClient`, `cms_client.py`). -/

/-- Mutable state of the CMS client: `self.token` and
`self.token_expiry`. -/
structure CmsSt where
  token : Option String
  tokenExpiry : Int
deriving DecidableEq, Repr

/-- Python truthiness of the held token (`not self.token`): `None` and
the empty string are falsy. -/
def tokenTruthy : Option String → Bool
  | none => false
  | some s => !(s == "")

/-- Failure modes of `_login` (a bad status/body raises `ValueError`, a
transport problem re-raises the `RequestException`). -/
inductive LoginErr where
  | badStatusOrBody
  | requestFailed
deriving DecidableEq, Repr

/-- The refresh condition of `_ensure_valid_token` (`cms_client.py` line
60): `not self.token or current_time >= (self.token_expiry - 3600)`. -/
def needsRefresh (st : CmsSt) (now : Int) : Bool :=
  !tokenTruthy st.token || decide (st.tokenExpiry - 3600 ≤ now)

/-- Embeds `_ensure_valid_token` (`cms_client.py` lines 55-72): when the token is
falsy or within an hour of expiry, log in and replace it wholesale,
setting the expiry 24 hours after the refresh time; otherwise do
nothing.  The login result for this call window is the `login` oracle. -/
def ensureValidToken (st : CmsSt) (now : Int) (login : Except LoginErr String) :
    Except LoginErr CmsSt :=
  if needsRefresh st now then
    match login with
    | .ok tk => .ok ⟨some tk, now + 86400⟩
    | .error e => .error e
  else .ok st

/-- Outcome of one POST attempt of `add_share_down`: a response with a
status code and a parsed `{code, msg}` body, or a non-HTTP exception. -/
inductive PostOutcome where
  | resp (status : Nat) (code : Nat) (msg : String)
  | exn
deriving DecidableEq, Repr

/-- The parsed `{code, msg}` body of a CMS reply. -/
structure CmsBody where
  code : Nat
  msg : String
deriving DecidableEq, Repr

/-- Failure modes of `add_share_down`. -/
inductive CmsErr where
  | emptyUrl
  | loginFailed (e : LoginErr)
  | httpError (status : Nat)
  | requestExc
deriving DecidableEq, Repr

/-- Network events of one `add_share_down` call, in order. -/
inductive CmsEv where
  | loginEv
  | postEv
deriving DecidableEq, Repr

/-- Embeds `add_share_down` (`cms_client.py` lines 74-110): reject a falsy URL
before anything else; ensure a valid token; POST; `raise_for_status`
raises exactly on a status ≥ 400; on a 401 the token is discarded, a
fresh one is acquired and the POST is retried once, any non-2xx status of
the retry propagating.  The `post` oracle gives the outcome of the i-th
POST attempt.  Returns the call result, the final token state and the
ordered network events. -/
def addShareDown (st : CmsSt) (now : Int) (url : String)
    (login : Except LoginErr String) (post : Nat → PostOutcome) :
    Except CmsErr CmsBody × CmsSt × List CmsEv :=
  if url == "" then (.error .emptyUrl, st, [])
  else
    let ev0 : List CmsEv := if needsRefresh st now then [.loginEv] else []
    match ensureValidToken st now login with
    | .error e => (.error (.loginFailed e), st, ev0)
    | .ok st1 =>
      match post 0 with
      | .exn => (.error .requestExc, st1, ev0 ++ [.postEv])
      | .resp s code msg =>
        if s < 400 then (.ok ⟨code, msg⟩, st1, ev0 ++ [.postEv])
        else if s == 401 then
          let st2 : CmsSt := ⟨none, st1.tokenExpiry⟩
          match ensureValidToken st2 now login with
          | .error e => (.error (.loginFailed e), st2, ev0 ++ [.postEv, .loginEv])
          | .ok st3 =>
            match post 1 with
            | .exn => (.error .requestExc, st3, ev0 ++ [.postEv, .loginEv, .postEv])
            | .resp s2 code2 msg2 =>
              if s2 < 400 then (.ok ⟨code2, msg2⟩, st3, ev0 ++ [.postEv, .loginEv, .postEv])
              else (.error (.httpError s2), st3, ev0 ++ [.postEv, .loginEv, .postEv])
        else (.error (.httpError s), st1, ev0 ++ [.postEv])

/-! ### Conversational dispatcher (`talk`, `__init__.py` lines 1103-1157).
Message texts are lists of characters; the Python string methods used by
`talk` are modelled below (digits and whitespace restricted to ASCII). -/

/-- An ASCII decimal digit (`str.isdigit` on the texts at hand). -/
def isPyDigit (c : Char) : Bool := decide ('0' ≤ c) && decide (c ≤ '9')

/-- Embeds `clean_text.isdigit()`: non-empty and all digits. -/
def pyIsDigit (s : List Char) : Bool := !s.isEmpty && s.all isPyDigit

/-- ASCII whitespace as stripped by `str.strip()`. -/
def isPyWs (c : Char) : Bool :=
  c == ' ' || c == '\t' || c == '\n' || c == '\r' ||
  c == Char.ofNat 11 || c == Char.ofNat 12

/-- Embeds the rstrip of `talk` over the two question-mark characters:
drop trailing question marks (both widths). -/
def rstripQM (s : List Char) : List Char :=
  (s.reverse.dropWhile (fun c => c == '?' || c == '？')).reverse

/-- Embeds `str.strip()`: drop leading and trailing whitespace. -/
def pyStrip (s : List Char) : List Char :=
  ((s.dropWhile isPyWs).reverse.dropWhile isPyWs).reverse

/-- Embeds `clean_text` (`__init__.py` line 1126): strip the question
marks, then the surrounding whitespace. -/
def cleanOf (s : List Char) : List Char := pyStrip (rstripQM s)

/-- Embeds the dot-split of a Python string, on a character list. -/
def splitOnDot : List Char → List (List Char)
  | [] => [[]]
  | c :: rest =>
    let r := splitOnDot rest
    if c == '.' then [] :: r
    else
      match r with
      | h :: t => (c :: h) :: t
      | [] => [[c]]

/-- Embeds `int()` of a digit string. -/
def natOfDigits (s : List Char) : Nat :=
  s.foldl (fun n c => n * 10 + (c.toNat - 48)) 0

/-- The type alternatives of the pattern
`^\d+\.(115|magnet|video|ed2k)$`. -/
def rtypeOf (t : List Char) : Option String :=
  if t == "115".toList then some "115"
  else if t == "magnet".toList then some "magnet"
  else if t == "video".toList then some "video"
  else if t == "ed2k".toList then some "ed2k"
  else none

/-- Embeds the regular-expression match on digits, a dot and one of the
four type names, together with the subsequent dot-split parse
(`__init__.py` lines 1127-1130). -/
def resourceMatch (s : List Char) : Option (Nat × String) :=
  match splitOnDot s with
  | [d, t] =>
    if pyIsDigit d then
      match rtypeOf t with
      | some ty => some (natOfDigits d, ty)
      | none => none
    else none
  | _ => none

/-- Embeds the trailing-question-mark test of `talk` (`__init__.py` line
1151), applied to the original text. -/
def endsWithQM (s : List Char) : Bool :=
  match s.getLast? with
  | some c => c == '?' || c == '？'
  | none => false

/-- The intent `talk` routes an inbound message to. -/
inductive Intent where
  | noAction
  | getResources (n : Nat) (t : String)
  | transfer (n : Nat)
  | selection (n : Nat)
  | search (keyword : List Char)
deriving DecidableEq, Repr

/-- The nested transfer condition of `talk` (`__init__.py` lines
1139-1142): CMS enabled with a client, the user has a resource-cache
entry, it is fresh, and the number is a valid 1-based index into its
item list. -/
def transferGate (cmsEnabled hasCmsClient : Bool) (resCache : Option RCEntry)
    (now : Int) (n : Nat) : Bool :=
  cmsEnabled && hasCmsClient &&
    (match resCache with
     | some c => cacheFresh now c.timestamp &&
         (decide (1 ≤ n) && decide (n ≤ c.resources.length))
     | none => false)

/-- The classification performed by `talk` (`__init__.py` lines
1103-1157): guard on the plugin being enabled with a client, a non-empty
text and a non-fallback source; then, on `clean_text`, first the
`<n>.<type>` pattern, then the all-digits branch (routed to transfer only
when `transferGate` holds), then the trailing-question-mark search. -/
def talkIntent (enabled hasClient cmsEnabled hasCmsClient : Bool)
    (source : Option String) (text : List Char)
    (resCache : Option RCEntry) (now : Int) : Intent :=
  if !enabled || !hasClient then .noAction
  else if text.isEmpty then .noAction
  else if source == some "nullbr_fallback" then .noAction
  else
    let clean := cleanOf text
    match resourceMatch clean with
    | some nt => .getResources nt.1 nt.2
    | none =>
      if pyIsDigit clean then
        let n := natOfDigits clean
        if transferGate cmsEnabled hasCmsClient resCache now n then
          .transfer n
        else .selection n
      else if endsWithQM text then
        if clean.isEmpty then .noAction else .search clean
      else .noAction

/-- The fetch function the walk uses for a movie/series hit. -/
def chosenFetch (ht : Hit) (fM fT : String → Option Bundle) :
    String → Option Bundle :=
  if ht.mediaType == "movie" then fM else fT

/-! ### Theorems about the claims. -/

/-- C2: for both per-user caches, an entry written at time `t` is live on
every read performed while `now - t < 3600` and is treated as absent once
it is older than the TTL; in particular a read at `t+3599` sees it and a
read at `t+3601` does not; the reads of `talk` (`cacheFresh`) and of the
handlers (`cacheExpired`, used by `handleGetResources`,
`handleResourceSelection` and `handleResourceTransfer`) all check the
age. -/
theorem claim_C2 (t now : Int) :
    ((now - t < 3600 → cacheFresh now t = true ∧ cacheExpired now t = false) ∧
     (now - t > 3600 → cacheFresh now t = false ∧ cacheExpired now t = true)) ∧
    (cacheFresh (t + 3599) t = true ∧ cacheExpired (t + 3599) t = false ∧
     cacheFresh (t + 3601) t = false ∧ cacheExpired (t + 3601) t = true) ∧
    (∀ (c : SCEntry) (n : Nat) (rt : String) (fM fT : String → Option Bundle),
      (now - c.timestamp > 3600 →
        (handleGetResources true (some c) now n rt fM fT).reply = GRReply.expired) ∧
      (now - c.timestamp < 3600 →
        (handleGetResources true (some c) now n rt fM fT).reply ≠ GRReply.expired)) ∧
    (∀ (cfg : Config) (hk : Bool) (c : SCEntry) (n : Nat)
        (fM fT : String → Option Bundle),
      (now - c.timestamp > 3600 →
        handleResourceSelection cfg hk (some c) now n fM fT = SelReply.expired) ∧
      (now - c.timestamp < 3600 →
        handleResourceSelection cfg hk (some c) now n fM fT ≠ SelReply.expired)) ∧
    (∀ (c : RCEntry) (rid : Nat),
      (now - c.timestamp > 3600 →
        handleResourceTransfer true true (some c) now rid = TransferReply.expired) ∧
      (now - c.timestamp < 3600 →
        handleResourceTransfer true true (some c) now rid ≠ TransferReply.expired)) := by
  refine ⟨⟨?_, ?_⟩, ⟨?_, ?_, ?_, ?_⟩, ?_, ?_, ?_⟩
  · intro h
    constructor <;> simp [cacheFresh, cacheExpired] <;> omega
  · intro h
    constructor <;> simp [cacheFresh, cacheExpired] <;> omega
  · simp [cacheFresh]
  · simp [cacheExpired]
  · simp [cacheFresh]
  · simp [cacheExpired]
  · intro c n rt fM fT
    constructor
    · intro h
      have he : cacheExpired now c.timestamp = true := by
        simp [cacheExpired]; omega
      simp [handleGetResources, he]
    · intro h
      have he : cacheExpired now c.timestamp = false := by
        simp [cacheExpired]; omega
      simp only [handleGetResources, Bool.not_true, if_false, he]
      repeat' split
      all_goals simp_all
  · intro cfg hk c n fM fT
    constructor
    · intro h
      have he : cacheExpired now c.timestamp = true := by
        simp [cacheExpired]; omega
      simp [handleResourceSelection, he]
    · intro h
      have he : cacheExpired now c.timestamp = false := by
        simp [cacheExpired]; omega
      simp only [handleResourceSelection, he, if_false]
      repeat' split
      all_goals simp_all
  · intro c rid
    constructor
    · intro h
      have he : cacheExpired now c.timestamp = true := by
        simp [cacheExpired]; omega
      simp [handleResourceTransfer, he]
    · intro h
      have he : cacheExpired now c.timestamp = false := by
        simp [cacheExpired]; omega
      simp only [handleResourceTransfer, he, if_false]
      repeat' split
      all_goals simp_all

/-- Witness for C2 at concrete times. -/
theorem claim_C2_witness :
    cacheFresh (0 + 3599) 0 = true ∧ cacheExpired (0 + 3601) 0 = true ∧
    (handleGetResources true (some ⟨[], "k", 0⟩) 3601 1 "115"
        (fun _ => none) (fun _ => none)).reply = GRReply.expired ∧
    (handleGetResources true (some ⟨[], "k", 0⟩) 3599 1 "115"
        (fun _ => none) (fun _ => none)).reply ≠ GRReply.expired := by
  refine ⟨(claim_C2 0 0).2.1.1, (claim_C2 0 0).2.1.2.2.2, ?_, ?_⟩
  · exact (((claim_C2 0 3601).2.2.1 ⟨[], "k", 0⟩ 1 "115" (fun _ => none)
      (fun _ => none)).1 (by norm_num))
  · exact (((claim_C2 0 3599).2.2.1 ⟨[], "k", 0⟩ 1 "115" (fun _ => none)
      (fun _ => none)).2 (by norm_num))

/-- C6: `_ensure_valid_token` replaces the token wholesale exactly when
the held token is falsy or `now` is within 3600 s of `tokenExpiry`,
setting the new expiry 86400 s after the refresh time; otherwise it
changes nothing; and running it twice in succession equals running it
once. -/
theorem claim_C6 (st : CmsSt) (now : Int) (tk : String) :
    (needsRefresh st now = true →
      ensureValidToken st now (Except.ok tk) = .ok ⟨some tk, now + 86400⟩) ∧
    (needsRefresh st now = false →
      ensureValidToken st now (Except.ok tk) = .ok st) ∧
    (needsRefresh st now = true ↔
      tokenTruthy st.token = false ∨ st.tokenExpiry - 3600 ≤ now) ∧
    ((ensureValidToken st now (Except.ok tk)).bind
        (fun st2 => ensureValidToken st2 now (Except.ok tk)) =
      ensureValidToken st now (Except.ok tk)) := by
  refine ⟨?_, ?_, ?_, ?_⟩
  · intro h; simp [ensureValidToken, h]
  · intro h; simp [ensureValidToken, h]
  · simp [needsRefresh]
  · by_cases h : needsRefresh st now = true
    · simp only [ensureValidToken, h, if_true, Except.bind]
      by_cases htk : tk = ""
      · subst htk
        simp [needsRefresh, tokenTruthy]
      · have h2 : needsRefresh ⟨some tk, now + 86400⟩ now = false := by
          simp [needsRefresh, tokenTruthy, htk]
          try omega
        simp [h2]
    · have h' : needsRefresh st now = false := by
        revert h; cases needsRefresh st now <;> simp
      simp [ensureValidToken, h', Except.bind]

/-- Witness for C6 at a concrete stale state. -/
theorem claim_C6_witness :
    ensureValidToken ⟨none, 0⟩ 100 (Except.ok "tok") = .ok ⟨some "tok", 86500⟩ ∧
    ensureValidToken ⟨some "old", 100000⟩ 100 (Except.ok "tok") =
      .ok ⟨some "old", 100000⟩ := by
  constructor
  · have h := (claim_C6 ⟨none, 0⟩ 100 "tok").1 (by decide)
    simpa using h
  · have h := (claim_C6 ⟨some "old", 100000⟩ 100 "tok").2.1 (by decide)
    simpa using h

/-- C7: every item stored by `_format_and_send_resources` in the user's
resource cache has a non-empty URL; raw records without a usable URL are
dropped, so the stored list is never longer than the raw list and never
longer than 10. -/
theorem claim_C7 (t : String) (raws : List RawRes) :
    ((buildResourceCache t raws).all fun it => !(it.url == "")) = true ∧
    (buildResourceCache t raws).length ≤ raws.length ∧
    (buildResourceCache t raws).length ≤ 10 := by
  refine ⟨?_, ?_, ?_⟩
  · simp only [buildResourceCache, List.all_eq_true]
    intro it hit
    rw [List.mem_filterMap] at hit
    obtain ⟨r, _, hr⟩ := hit
    by_cases hu : urlFor t r == ""
    · simp [hu] at hr
    · simp only [hu, if_false, Option.some.injEq] at hr
      cases hr
      simpa [itemOf] using hu
  · calc (buildResourceCache t raws).length
        ≤ (raws.take 10).length := List.length_filterMap_le _ _
      _ ≤ raws.length := by simp [List.length_take]
  · calc (buildResourceCache t raws).length
        ≤ (raws.take 10).length := List.length_filterMap_le _ _
      _ ≤ 10 := by simp [List.length_take]

/-- C9: `add_share_down` called with an empty URL fails immediately: the
error is raised before any token check or network request (no login and
no POST event), and the client's token state is unchanged. -/
theorem claim_C9 (st : CmsSt) (now : Int) (login : Except LoginErr String)
    (post : Nat → PostOutcome) :
    addShareDown st now "" login post = (.error .emptyUrl, st, []) := by
  simp [addShareDown]

/-- C8: every external-API request is first attempted on the proxied path
with a 5 s timeout; on a caught timeout or connection failure it is
retried exactly once on the direct path with a (10 s connect, 30 s read)
timeout; if the direct attempt also fails the operation fails; and a
response received on the proxied path, whatever its status code, never
triggers the direct attempt. -/
theorem claim_C8 :
    (∀ p d : Except NetFault Resp,
      (twoPathRequest p d).1.head? = some ⟨true, .single 5⟩) ∧
    (∀ (r : Resp) (d : Except NetFault Resp),
      twoPathRequest (.ok r) d = ([⟨true, .single 5⟩], some r)) ∧
    (∀ (f : NetFault) (d : Except NetFault Resp), isProxyFallbackFault f = true →
      (twoPathRequest (.error f) d).1 =
        [⟨true, .single 5⟩, ⟨false, .pair 10 30⟩] ∧
      (twoPathRequest (.error f) d).2 =
        (match d with
         | .ok r => some r
         | .error _ => none)) ∧
    (∀ f g : NetFault, isProxyFallbackFault f = true →
      twoPathRequest (.error f) (.error g) =
        ([⟨true, .single 5⟩, ⟨false, .pair 10 30⟩], none)) := by
  refine ⟨?_, ?_, ?_, ?_⟩
  · intro p d
    cases p with
    | ok r => simp [twoPathRequest, requestTimeout]
    | error f =>
      cases d <;> simp [twoPathRequest, requestTimeout] <;>
        cases hf : isProxyFallbackFault f <;> simp
  · intro r d
    simp [twoPathRequest, requestTimeout]
  · intro f d hf
    cases d <;> simp [twoPathRequest, requestTimeout, hf]
  · intro f g hf
    simp [twoPathRequest, requestTimeout, hf]

/-- Witness for C8: a proxied timeout followed by a direct success. -/
theorem claim_C8_witness :
    twoPathRequest (Except.error NetFault.timeout) (Except.ok ⟨200, []⟩) =
      ([⟨true, .single 5⟩, ⟨false, .pair 10 30⟩], some ⟨200, []⟩) := by
  have h := claim_C8.2.2.1 NetFault.timeout (Except.ok ⟨200, []⟩) (by decide)
  exact Prod.ext h.1 h.2

/-- C5 as written is false: an HTTP 404 on a per-title resource lookup
produces the same `None` outcome as a 403 (and every other non-200
status), not a distinct successful-but-empty result. -/
theorem claim_C5_counterexample :
    get_movie_resources true
        (Except.ok ⟨404, [("115", [⟨some "x", none, none, none, none, none, none⟩])]⟩)
        (Except.error NetFault.timeout) =
      get_movie_resources true
        (Except.ok ⟨403, [("115", [⟨some "x", none, none, none, none, none, none⟩])]⟩)
        (Except.error NetFault.timeout) ∧
    get_movie_resources true
        (Except.ok ⟨404, [("115", [⟨some "x", none, none, none, none, none, none⟩])]⟩)
        (Except.error NetFault.timeout) = none ∧
    get_tv_resources true
        (Except.ok ⟨404, [("115", [⟨some "x", none, none, none, none, none, none⟩])]⟩)
        (Except.error NetFault.timeout) = none := by
  refine ⟨rfl, rfl, rfl⟩

/-- C5 amended: on a per-title resource lookup every non-200 status —
404 included — yields the same empty outcome `none` as 401, 403 and 429;
only a 200 yields the parsed body.  The 404 case is distinguished at most
in the log text, never in the returned value. -/
theorem claim_C5 (s : Nat) (b : Bundle) (d : Except NetFault Resp)
    (hs : s ≠ 200) :
    get_movie_resources true (Except.ok ⟨s, b⟩) d = none ∧
    get_tv_resources true (Except.ok ⟨s, b⟩) d = none ∧
    get_movie_resources true (Except.ok ⟨200, b⟩) d = some b ∧
    get_tv_resources true (Except.ok ⟨200, b⟩) d = some b := by
  have hbeq : (s == 200) = false := by
    simp [hs]
  refine ⟨?_, ?_, ?_, ?_⟩ <;>
    simp [get_movie_resources, get_tv_resources, twoPathRequest,
      resourceStatusResult, hbeq]

/-- Witness for C5 at status 500. -/
theorem claim_C5_witness :
    get_movie_resources true (Except.ok ⟨500, []⟩) (Except.error NetFault.timeout) =
      none := by
  exact (claim_C5 500 [] (Except.error NetFault.timeout) (by decide)).1

/-- C3: `add_share_down` with a non-empty URL ensures a valid token
before posting; a 401 answer discards the cached token, acquires a fresh
one and retries the POST exactly once; a second consecutive 401
propagates as the authentication failure with no third POST.  The event
lists pin the exact order and number of login and POST calls. -/
theorem claim_C3 (st : CmsSt) (now : Int) (url tk : String)
    (post : Nat → PostOutcome) (hurl : ¬url = "") :
    (∀ s c m, post 0 = .resp s c m → s < 400 →
      (addShareDown st now url (Except.ok tk) post).2.2 =
        (if needsRefresh st now then [CmsEv.loginEv] else []) ++ [CmsEv.postEv]) ∧
    (∀ c0 m0 s2 c1 m1, post 0 = .resp 401 c0 m0 → post 1 = .resp s2 c1 m1 →
      s2 < 400 →
      addShareDown st now url (Except.ok tk) post =
        (.ok ⟨c1, m1⟩, ⟨some tk, now + 86400⟩,
         (if needsRefresh st now then [CmsEv.loginEv] else []) ++
           [CmsEv.postEv, CmsEv.loginEv, CmsEv.postEv])) ∧
    (∀ c0 m0 c1 m1, post 0 = .resp 401 c0 m0 → post 1 = .resp 401 c1 m1 →
      addShareDown st now url (Except.ok tk) post =
        (.error (.httpError 401), ⟨some tk, now + 86400⟩,
         (if needsRefresh st now then [CmsEv.loginEv] else []) ++
           [CmsEv.postEv, CmsEv.loginEv, CmsEv.postEv])) := by
  have hbeq : (url == "") = false := by
    simp [hurl]
  have hnone : ∀ e : Int, needsRefresh ⟨none, e⟩ now = true := by
    intro e
    simp [needsRefresh, tokenTruthy]
  refine ⟨?_, ?_, ?_⟩
  · intro s c m h0 hs
    by_cases hn : needsRefresh st now = true <;>
      simp [addShareDown, hbeq, ensureValidToken, hn, h0, hs]
  · intro c0 m0 s2 c1 m1 h0 h1 hs2
    by_cases hn : needsRefresh st now = true <;>
      simp [addShareDown, hbeq, ensureValidToken, hn, hnone, h0, h1, hs2]
  · intro c0 m0 c1 m1 h0 h1
    by_cases hn : needsRefresh st now = true <;>
      simp [addShareDown, hbeq, ensureValidToken, hn, hnone, h0, h1]

/-- Witness for C3: a double 401 from a fresh client state. -/
theorem claim_C3_witness :
    addShareDown ⟨none, 0⟩ 0 "u" (Except.ok "t")
        (fun _ => PostOutcome.resp 401 0 "a") =
      (.error (.httpError 401), ⟨some "t", 86400⟩,
       [CmsEv.loginEv, CmsEv.postEv, CmsEv.loginEv, CmsEv.postEv]) := by
  have h := (claim_C3 ⟨none, 0⟩ 0 "u" "t" (fun _ => PostOutcome.resp 401 0 "a")
      (by decide)).2.2 0 "a" 0 "a" rfl rfl
  simpa using h

/-- A dotless character list splits into a single chunk. -/
theorem splitOnDot_no_dot (s : List Char) (h : ∀ c ∈ s, (c == '.') = false) :
    splitOnDot s = [s] := by
  induction s with
  | nil => rfl
  | cons c cs ih =>
    have hc : (c == '.') = false := h c (List.mem_cons_self c cs)
    have ih2 : splitOnDot cs = [cs] := ih fun d hd => h d (List.mem_cons_of_mem c hd)
    simp [splitOnDot, hc, ih2]

/-- An all-digits clean text never matches the resource-request pattern
(the pattern requires a dot). -/
theorem digits_not_resourceMatch (s : List Char) (h : pyIsDigit s = true) :
    resourceMatch s = none := by
  have hnd : ∀ c ∈ s, (c == '.') = false := by
    intro c hc
    have hdig : isPyDigit c = true := by
      have := (Bool.and_eq_true _ _).mp h
      exact (List.all_eq_true.mp this.2) c hc
    have h0 : ('0' ≤ c) := by
      have := (Bool.and_eq_true _ _).mp hdig
      exact of_decide_eq_true this.1
    have : c ≠ '.' := by
      intro he
      subst he
      exact absurd h0 (by decide)
    simpa using this
  simp [resourceMatch, splitOnDot_no_dot s hnd]

/-- C4 as written is false: with a live resource-cache entry and a valid
1-based index, an all-digits message is still routed to title selection
when the CMS transfer collaborator is disabled. -/
theorem claim_C4_counterexample :
    cacheFresh 10 0 = true ∧
    (1 ≤ 1 ∧ 1 ≤ ([⟨"u", "t", "s", "115"⟩] : List Item).length) ∧
    talkIntent true true false false none ['1']
        (some ⟨[⟨"u", "t", "s", "115"⟩], "T", "115", 0⟩) 10 =
      Intent.selection 1 ∧
    Intent.selection 1 ≠ Intent.transfer 1 := by
  refine ⟨by decide, ⟨by decide, by decide⟩, by decide, by decide⟩

/-- C4 amended: an all-digits message is routed to transfer if and only
if CMS transfer is enabled with a configured client AND a live
resource-cache entry exists whose item list the number indexes 1-based;
in every other case it is routed to title selection. -/
theorem claim_C4 (enabled hasClient cmsEnabled hasCmsClient : Bool)
    (source : Option String) (text : List Char)
    (resCache : Option RCEntry) (now : Int)
    (hen : enabled = true) (hcl : hasClient = true)
    (hsrc : source ≠ some "nullbr_fallback")
    (hdig : pyIsDigit (cleanOf text) = true) :
    (talkIntent enabled hasClient cmsEnabled hasCmsClient source text resCache now =
        Intent.transfer (natOfDigits (cleanOf text)) ↔
      (cmsEnabled = true ∧ hasCmsClient = true ∧
        ∃ c, resCache = some c ∧ now - c.timestamp < 3600 ∧
          1 ≤ natOfDigits (cleanOf text) ∧
          natOfDigits (cleanOf text) ≤ c.resources.length)) ∧
    (¬(cmsEnabled = true ∧ hasCmsClient = true ∧
        ∃ c, resCache = some c ∧ now - c.timestamp < 3600 ∧
          1 ≤ natOfDigits (cleanOf text) ∧
          natOfDigits (cleanOf text) ≤ c.resources.length) →
      talkIntent enabled hasClient cmsEnabled hasCmsClient source text resCache now =
        Intent.selection (natOfDigits (cleanOf text))) := by
  subst hen
  subst hcl
  have hne : text.isEmpty = false := by
    cases text with
    | nil => exact absurd hdig (by decide)
    | cons a l => rfl
  have hrm : resourceMatch (cleanOf text) = none := digits_not_resourceMatch _ hdig
  have hsb : (source == some "nullbr_fallback") = false := by
    simpa using hsrc
  have hequiv : transferGate cmsEnabled hasCmsClient resCache now
      (natOfDigits (cleanOf text)) = true ↔
      (cmsEnabled = true ∧ hasCmsClient = true ∧
        ∃ c, resCache = some c ∧ now - c.timestamp < 3600 ∧
          1 ≤ natOfDigits (cleanOf text) ∧
          natOfDigits (cleanOf text) ≤ c.resources.length) := by
    cases resCache with
    | none => simp [transferGate]
    | some c => simp [transferGate, cacheFresh, and_assoc]
  have hsplit : ∀ (B : Bool) (n : Nat),
      ((if B then Intent.transfer n else Intent.selection n) =
          Intent.transfer n ↔ B = true) ∧
      (B = false →
        (if B then Intent.transfer n else Intent.selection n) =
          Intent.selection n) := by
    intro B n
    cases B <;> simp
  simp only [talkIntent, Bool.not_true, Bool.or_self, if_false, hne, hsb, hrm,
    hdig, if_true]
  refine ⟨?_, ?_⟩
  · rw [← hequiv]
    exact (hsplit _ _).1
  · intro hno
    rw [← hequiv] at hno
    exact (hsplit _ _).2 (Bool.eq_false_iff.mpr hno)

/-- Witness for C4 amended: CMS enabled, live entry, valid index 2. -/
theorem claim_C4_witness :
    talkIntent true true true true none ['2']
        (some ⟨[⟨"u1", "t", "s", "115"⟩, ⟨"u2", "t", "s", "115"⟩], "T", "115", 0⟩)
        10 = Intent.transfer 2 := by
  have h := (claim_C4 true true true true none ['2']
      (some ⟨[⟨"u1", "t", "s", "115"⟩, ⟨"u2", "t", "s", "115"⟩], "T", "115", 0⟩)
      10 rfl rfl (by simp) (by decide)).1.mpr
      ⟨rfl, rfl, ⟨⟨[⟨"u1", "t", "s", "115"⟩, ⟨"u2", "t", "s", "115"⟩], "T", "115", 0⟩,
        rfl, by decide, by decide, by decide⟩⟩
  have h2 : natOfDigits (cleanOf ['2']) = 2 := by decide
  rw [h2] at h
  exact h

/-- Characterization of the priority loop: over any type list, the fetch
calls are exactly the available-and-enabled candidates up to and
including the first one whose bundle is non-empty, and the outcome is
that first hit or the fallback. -/
theorem priorityLoop_characterization (cfg : Config) (ht : Hit)
    (fM fT : String → Option Bundle) (now : Int)
    (fetch : String → Option Bundle)
    (hmf : ∀ t, mediaFetchRes ht fM fT t = (fetch t, true)) :
    ∀ ts : List String,
      (match (ts.filter fun t => flagOf ht t && enabledOf cfg t).find?
          (fun t => bundleFound (fetch t) t) with
       | some t =>
         (priorityLoop cfg ht fM fT now ts).calls =
           ((ts.filter fun t => flagOf ht t && enabledOf cfg t).takeWhile
             fun u => !bundleFound (fetch u) u) ++ [t] ∧
         (priorityLoop cfg ht fM fT now ts).outcome =
           POutcome.found t (bundleGet ((fetch t).getD []) t)
       | none =>
         (priorityLoop cfg ht fM fT now ts).calls =
           (ts.filter fun t => flagOf ht t && enabledOf cfg t) ∧
         (priorityLoop cfg ht fM fT now ts).outcome =
           POutcome.fallback (hitTitle ht)) := by
  intro ts
  induction ts with
  | nil => simp [priorityLoop]
  | cons t rest ih =>
    by_cases hf : flagOf ht t = true
    · by_cases he : enabledOf cfg t = true
      · have hfe : (flagOf ht t && enabledOf cfg t) = true := by
          simp [hf, he]
        by_cases hb : bundleFound (fetch t) t = true
        · simp [priorityLoop, hf, he, hmf t, hb, List.filter_cons, hfe,
            List.find?_cons_of_pos, List.takeWhile_cons]
        · have hb2 : bundleFound (fetch t) t = false := by
            revert hb
            cases bundleFound (fetch t) t <;> simp
          have hfil : (t :: rest).filter (fun u => flagOf ht u && enabledOf cfg u) =
              t :: rest.filter (fun u => flagOf ht u && enabledOf cfg u) := by
            simp [List.filter_cons, hfe]
          rw [hfil]
          rw [List.find?_cons_of_neg _ (by simp [hb2])]
          rw [List.takeWhile_cons_of_pos (by simp [hb2])]
          simp only [priorityLoop, hf, he, Bool.not_true, Bool.false_eq_true,
            if_false, hmf t, hb2, if_true]
          cases hfind : (rest.filter fun u => flagOf ht u && enabledOf cfg u).find?
              (fun u => bundleFound (fetch u) u) with
          | some u =>
            rw [hfind] at ih
            simp [ih.1, ih.2]
          | none =>
            rw [hfind] at ih
            simp [ih.1, ih.2]
      · have he2 : enabledOf cfg t = false := by
          revert he
          cases enabledOf cfg t <;> simp
        have hfe : (flagOf ht t && enabledOf cfg t) = false := by
          simp [he2]
        simp only [priorityLoop, hf, he2, Bool.not_true, Bool.not_false,
          Bool.false_eq_true, if_false, if_true, List.filter_cons, hfe]
        exact ih
    · have hf2 : flagOf ht t = false := by
        revert hf
        cases flagOf ht t <;> simp
      have hfe : (flagOf ht t && enabledOf cfg t) = false := by
        simp [hf2]
      simp only [priorityLoop, hf2, Bool.not_false, if_true,
        List.filter_cons, hfe, Bool.false_eq_true, if_false]
      exact ih

/-- C1: for a movie/series hit with a truthy tmdbid, the priority walk
visits exactly the configured order restricted to available-and-enabled
types, fetches each in turn, stops at the first whose fetch yields a
non-empty bundle, and when no type yields one the fallback search is
invoked with the hit title as the query. -/
theorem claim_C1 (cfg : Config) (ht : Hit) (fM fT : String → Option Bundle)
    (now : Int)
    (hmt : ht.mediaType = "movie" ∨ ht.mediaType = "tv")
    (htm : truthyTmdb ht.tmdbid = true) :
    (match (cfg.priority.filter fun t => flagOf ht t && enabledOf cfg t).find?
        (fun t => bundleFound (chosenFetch ht fM fT t) t) with
     | some t =>
       (getResourcesByPriority cfg ht fM fT now).calls =
         ((cfg.priority.filter fun t => flagOf ht t && enabledOf cfg t).takeWhile
           fun u => !bundleFound (chosenFetch ht fM fT u) u) ++ [t] ∧
       (getResourcesByPriority cfg ht fM fT now).outcome =
         POutcome.found t (bundleGet ((chosenFetch ht fM fT t).getD []) t)
     | none =>
       (getResourcesByPriority cfg ht fM fT now).calls =
         (cfg.priority.filter fun t => flagOf ht t && enabledOf cfg t) ∧
       (getResourcesByPriority cfg ht fM fT now).outcome =
         POutcome.fallback (hitTitle ht)) := by
  have hmf : ∀ t, mediaFetchRes ht fM fT t = (chosenFetch ht fM fT t, true) := by
    intro t
    rcases hmt with h | h <;> simp [mediaFetchRes, chosenFetch, h]
  have hrun : getResourcesByPriority cfg ht fM fT now =
      priorityLoop cfg ht fM fT now cfg.priority := by
    simp [getResourcesByPriority, htm]
  rw [hrun]
  exact priorityLoop_characterization cfg ht fM fT now
    (chosenFetch ht fM fT) hmf cfg.priority

/-- Witness for C1: available magnet (empty bundle) then 115 (non-empty);
the walk fetches magnet, then 115, and stops there. -/
theorem claim_C1_witness :
    (getResourcesByPriority ⟨["magnet", "115", "ed2k", "video"], true, true, true, true⟩
        ⟨some "M", "movie", some 603, true, true, false, false⟩
        (fun t => if t == "115" then
            some [("115", [⟨some "x", none, none, none, none, none, none⟩])]
          else if t == "magnet" then some [("magnet", [])] else none)
        (fun _ => none) 0).calls = ["magnet", "115"] ∧
    (getResourcesByPriority ⟨["magnet", "115", "ed2k", "video"], true, true, true, true⟩
        ⟨some "M", "movie", some 603, true, true, false, false⟩
        (fun t => if t == "115" then
            some [("115", [⟨some "x", none, none, none, none, none, none⟩])]
          else if t == "magnet" then some [("magnet", [])] else none)
        (fun _ => none) 0).outcome =
      POutcome.found "115" [⟨some "x", none, none, none, none, none, none⟩] := by
  exact claim_C1 ⟨["magnet", "115", "ed2k", "video"], true, true, true, true⟩
    ⟨some "M", "movie", some 603, true, true, false, false⟩
    (fun t => if t == "115" then
        some [("115", [⟨some "x", none, none, none, none, none, none⟩])]
      else if t == "magnet" then some [("magnet", [])] else none)
    (fun _ => none) 0 (Or.inl rfl) (by decide)

/-- C10: with no (truthy) tmdbid, the priority-walk handler answers the
error outcome with no fetch call and no cache write, and the
typed-resource handler reaching the selected hit does the same. -/
theorem claim_C10 (cfg : Config) (ht : Hit) (fM fT : String → Option Bundle)
    (now : Int) (htm : truthyTmdb ht.tmdbid = false) :
    getResourcesByPriority cfg ht fM fT now =
      ⟨[], POutcome.errNoTmdb, none, none⟩ ∧
    (∀ (c : SCEntry) (n : Nat) (rt : String),
      cacheExpired now c.timestamp = false → 1 ≤ n → n ≤ c.results.length →
      truthyTmdb ((c.results.getD (n - 1) dfltHit).tmdbid) = false →
      handleGetResources true (some c) now n rt fM fT =
        ⟨GRReply.errNoTmdb, [], none, none⟩) := by
  constructor
  · simp [getResourcesByPriority, htm]
  · intro c n rt hc h1 h2 htm2
    simp [handleGetResources, hc]
    rw [if_neg (by omega),
      if_pos (show truthyTmdb ((c.results[n - 1]?).getD dfltHit).tmdbid = false by
        simpa using htm2)]

/-- Witness for C10 at a hit lacking a tmdbid. -/
theorem claim_C10_witness :
    getResourcesByPriority ⟨["115"], true, true, true, true⟩
        ⟨some "t", "movie", none, true, true, true, true⟩
        (fun _ => none) (fun _ => none) 0 =
      ⟨[], POutcome.errNoTmdb, none, none⟩ ∧
    handleGetResources true
        (some ⟨[⟨some "t", "movie", none, false, false, false, false⟩], "k", 0⟩)
        0 1 "115" (fun _ => none) (fun _ => none) =
      ⟨GRReply.errNoTmdb, [], none, none⟩ := by
  have h := claim_C10 ⟨["115"], true, true, true, true⟩
    ⟨some "t", "movie", none, true, true, true, true⟩
    (fun _ => none) (fun _ => none) 0 (by decide)
  exact ⟨h.1, h.2 ⟨[⟨some "t", "movie", none, false, false, false, false⟩], "k", 0⟩
    1 "115" (by decide) (by decide) (by decide) (by decide)⟩

end NullbrSearch
